import Mathlib

/-!
Verification of the investingIQ task-aggregation core.

The definitions below are a shallow embedding of the aggregation code:

* `src/functions/aggregate_functions/__init__.py` — the Redis-backed
  aggregator (`get_task_results`, `update_task_field`, `main`,
  `check_completion`), embedded as pure state-passing functions over the
  single task entry addressed by an event (the Redis hash stored under
  `"task:" + str(task_id)`).
* `src/functions/shared/webpubsub_utils.py` — the progress-callback
  payload builders (`send_progress`, `send_completed_with_data`).
* `src/azure-functions/aggregate_functions/__init__.py` — the in-memory
  variant (`main`, `check_and_proceed`), embedded over the single
  `_partial_results[task_id]` entry.

Python values carried by messages and stored (JSON-serialized) in the
store are modelled by `PyVal`; Python `None` is `PyVal.pyNone`.
`json.dumps` / `json.loads` round-trip is the identity on these values,
so serialization is not modelled separately.
-/

namespace InvestingIQ

mutual

/-- A Python value as it appears in a parsed JSON message or in a task
snapshot. `pyNone` is Python `None` (also the result of parsing the JSON
text `null`). Python lists and dicts are `PyList` / `PyDict` (mutual
inductives isomorphic to `List PyVal` / `List (String × PyVal)`). -/
inductive PyVal where
  | pyNone : PyVal
  | boolv : Bool → PyVal
  | num : Nat → PyVal
  | str : String → PyVal
  | listv : PyList → PyVal
  | dictv : PyDict → PyVal
deriving DecidableEq, Repr

inductive PyList where
  | nil : PyList
  | cons : PyVal → PyList → PyList
deriving DecidableEq, Repr

inductive PyDict where
  | nil : PyDict
  | cons : String → PyVal → PyDict → PyDict
deriving DecidableEq, Repr

end

/-- Python truthiness (`if x:`): `None`, `False`, `0`, `""`, `[]` and
`{}` are falsy, everything else truthy. -/
def truthy : PyVal → Bool
  | .pyNone => false
  | .boolv b => b
  | .num n => n != 0
  | .str s => s != ""
  | .listv xs => xs != .nil
  | .dictv kvs => kvs != .nil

/-- Python `x is not None`. -/
def isNotNone : PyVal → Bool
  | .pyNone => false
  | _ => true

/-! ### The Redis-backed aggregator (`src/functions/aggregate_functions/__init__.py`)

The store is modelled as the single Redis hash addressed by the event,
i.e. the entry under key `"task:" + str(task_id)`; every claim below is
about sequences of events that share one `task_id`, for which this entry
is the only state `main` touches. -/

/-- The eight result slots of a task (`stock_data` .. `llm_insights`). -/
inductive Slot where
  | stock_data | news | ml_prediction | ml_technical | ml_sentiment
  | llm_sentiment | llm_summary | llm_insights
deriving DecidableEq, Repr

/-- The hash fields `main` writes: the eight result slots plus `ticker`
and `llm_config`. -/
inductive Field where
  | ticker | llm_config | stock_data | news | ml_prediction | ml_technical
  | ml_sentiment | llm_sentiment | llm_summary | llm_insights
deriving DecidableEq, Repr

/-- The hash field a result slot is stored under. -/
def Field.ofSlot : Slot → Field
  | .stock_data => .stock_data
  | .news => .news
  | .ml_prediction => .ml_prediction
  | .ml_technical => .ml_technical
  | .ml_sentiment => .ml_sentiment
  | .llm_sentiment => .llm_sentiment
  | .llm_summary => .llm_summary
  | .llm_insights => .llm_insights

/-- TASK_TTL = 3600 (seconds). -/
def TASK_TTL : Nat := 3600

/-- One task's Redis hash: each field is `Option.none` when absent from
the hash and `some v` when set (the stored text is `json.dumps v`).
`ttl` is the key's remaining time-to-live; a key with no fields and no
ttl (`emptyHash`) is an absent key. -/
structure TaskHash where
  ticker : Option PyVal
  llm_config : Option PyVal
  stock_data : Option PyVal
  news : Option PyVal
  ml_prediction : Option PyVal
  ml_technical : Option PyVal
  ml_sentiment : Option PyVal
  llm_sentiment : Option PyVal
  llm_summary : Option PyVal
  llm_insights : Option PyVal
  ttl : Option Nat
deriving DecidableEq, Repr

/-- An absent key: `hgetall` returns `{}` for it. -/
def emptyHash : TaskHash :=
  ⟨Option.none, Option.none, Option.none, Option.none, Option.none,
   Option.none, Option.none, Option.none, Option.none, Option.none, Option.none⟩

def TaskHash.get (h : TaskHash) : Field → Option PyVal
  | .ticker => h.ticker
  | .llm_config => h.llm_config
  | .stock_data => h.stock_data
  | .news => h.news
  | .ml_prediction => h.ml_prediction
  | .ml_technical => h.ml_technical
  | .ml_sentiment => h.ml_sentiment
  | .llm_sentiment => h.llm_sentiment
  | .llm_summary => h.llm_summary
  | .llm_insights => h.llm_insights

def TaskHash.set (h : TaskHash) : Field → PyVal → TaskHash
  | .ticker, v => { h with ticker := some v }
  | .llm_config, v => { h with llm_config := some v }
  | .stock_data, v => { h with stock_data := some v }
  | .news, v => { h with news := some v }
  | .ml_prediction, v => { h with ml_prediction := some v }
  | .ml_technical, v => { h with ml_technical := some v }
  | .ml_sentiment, v => { h with ml_sentiment := some v }
  | .llm_sentiment, v => { h with llm_sentiment := some v }
  | .llm_summary, v => { h with llm_summary := some v }
  | .llm_insights, v => { h with llm_insights := some v }

/-- `update_task_field`: `r.hset(key, field, json.dumps(value))` followed
by `r.expire(key, TASK_TTL)`. -/
def update_task_field (h : TaskHash) (field : Field) (value : PyVal) : TaskHash :=
  { h.set field value with ttl := some TASK_TTL }

/-- The dict `get_task_results` returns: every known field defaulted to
`None`, then overwritten by `json.loads` of each field present in the
hash (`json.loads (json.dumps v) = v`; the `except JSONDecodeError`
fallback is unreachable for values written by `update_task_field`). -/
structure Snapshot where
  stock_data : PyVal
  news : PyVal
  ml_prediction : PyVal
  ml_technical : PyVal
  ml_sentiment : PyVal
  llm_sentiment : PyVal
  llm_summary : PyVal
  llm_insights : PyVal
  llm_config : PyVal
  ticker : PyVal
deriving DecidableEq, Repr

/-- `get_task_results(r, task_id)`: `hgetall` on the task's key, parsed
over the `None` defaults. -/
def get_task_results (h : TaskHash) : Snapshot where
  stock_data := h.stock_data.getD .pyNone
  news := h.news.getD .pyNone
  ml_prediction := h.ml_prediction.getD .pyNone
  ml_technical := h.ml_technical.getD .pyNone
  ml_sentiment := h.ml_sentiment.getD .pyNone
  llm_sentiment := h.llm_sentiment.getD .pyNone
  llm_summary := h.llm_summary.getD .pyNone
  llm_insights := h.llm_insights.getD .pyNone
  llm_config := h.llm_config.getD .pyNone
  ticker := h.ticker.getD .pyNone

/-- The snapshot entry for any of the ten hash fields. -/
def Snapshot.field (res : Snapshot) : Field → PyVal
  | .ticker => res.ticker
  | .llm_config => res.llm_config
  | .stock_data => res.stock_data
  | .news => res.news
  | .ml_prediction => res.ml_prediction
  | .ml_technical => res.ml_technical
  | .ml_sentiment => res.ml_sentiment
  | .llm_sentiment => res.llm_sentiment
  | .llm_summary => res.llm_summary
  | .llm_insights => res.llm_insights

/-- The snapshot entry for a result slot. -/
def Snapshot.get (res : Snapshot) : Slot → PyVal
  | .stock_data => res.stock_data
  | .news => res.news
  | .ml_prediction => res.ml_prediction
  | .ml_technical => res.ml_technical
  | .ml_sentiment => res.ml_sentiment
  | .llm_sentiment => res.llm_sentiment
  | .llm_summary => res.llm_summary
  | .llm_insights => res.llm_insights

/-! ### Progress callbacks (`src/functions/shared/webpubsub_utils.py`)

`_send_callback` POSTs the payload and swallows every exception, so
sending is modelled as appending the payload to the run's output list. -/

/-- The `data` object of `send_completed_with_data`: exactly the eight
result slots of the snapshot, each via `results.get(...)`. -/
structure CompletedData where
  stock_data : PyVal
  news : PyVal
  ml_prediction : PyVal
  ml_technical : PyVal
  ml_sentiment : PyVal
  llm_sentiment : PyVal
  llm_summary : PyVal
  llm_insights : PyVal
deriving DecidableEq, Repr

/-- A callback payload POSTed to `/api/v1/callback/progress`. `data` is
absent (`Option.none`) except on the completed notification. -/
structure Callback where
  task_id : PyVal
  progress : Nat
  current_step : String
  status : String
  ticker : PyVal
  data : Option CompletedData
deriving DecidableEq, Repr

/-- `send_progress(task_id, progress, step)` with the default arguments
`status="processing"`, `ticker=""`. -/
def send_progress (task_id : PyVal) (progress : Nat) (step : String) : Callback :=
  { task_id := task_id, progress := progress, current_step := step,
    status := "processing", ticker := .str "", data := Option.none }

/-- The `data` object `send_completed_with_data` builds from the
snapshot: the eight result slots and nothing else (in particular not
`llm_config` and not `ticker`). -/
def completedDataOf (results : Snapshot) : CompletedData where
  stock_data := results.stock_data
  news := results.news
  ml_prediction := results.ml_prediction
  ml_technical := results.ml_technical
  ml_sentiment := results.ml_sentiment
  llm_sentiment := results.llm_sentiment
  llm_summary := results.llm_summary
  llm_insights := results.llm_insights

/-- `send_completed_with_data(task_id, ticker, results)`. -/
def send_completed_with_data (task_id : PyVal) (ticker : PyVal) (results : Snapshot) :
    Callback :=
  { task_id := task_id, progress := 100, current_step := "Analysis complete",
    status := "completed", ticker := ticker, data := some (completedDataOf results) }

/-- The completed notifications among a run's callbacks (the ones
carrying a `data` object, i.e. sent by `send_completed_with_data`). -/
def completedOf (cs : List Callback) : List Callback :=
  cs.filter (fun c => c.data.isSome)

/-! ### `check_completion` and `main` -/

/-- The `ml_complete` conjunction of `check_completion`: the five
statistical slots are all `is not None`. -/
def ml_complete (results : Snapshot) : Bool :=
  isNotNone results.stock_data && isNotNone results.news &&
  isNotNone results.ml_prediction && isNotNone results.ml_technical &&
  isNotNone results.ml_sentiment

/-- The `llm_complete` conjunction of `check_completion`: the three LLM
slots are all `is not None`. -/
def llm_complete (results : Snapshot) : Bool :=
  isNotNone results.llm_sentiment && isNotNone results.llm_summary &&
  isNotNone results.llm_insights

/-- The `all_complete` flag of `check_completion`:
`ml_complete and llm_complete` when `results.get("llm_config") is not
None`, else `ml_complete`. -/
def all_complete (results : Snapshot) : Bool :=
  if isNotNone results.llm_config then ml_complete results && llm_complete results
  else ml_complete results

/-- `check_completion(r, task_id, results)`: when `all_complete`, send
the completed callback and `r.delete` the task's key; otherwise leave
the store alone (the `else` branch only logs the missing slots).
Returns the task entry afterwards and the callbacks sent. -/
def check_completion (h : TaskHash) (task_id : PyVal) (results : Snapshot) :
    TaskHash × List Callback :=
  if all_complete results then
    (emptyHash, [send_completed_with_data task_id results.ticker results])
  else
    (h, [])

/-- An aggregate-queue message as `main` reads it: `message.get(k)` for
each key, so a missing key is `None` (`task_type := Option.none`,
`PyVal.pyNone` for the rest). -/
structure Message where
  task_type : Option String
  task_id : PyVal
  ticker : PyVal
  data : PyVal
  llm_config : PyVal
deriving DecidableEq, Repr

/-- The slot the `if task_type == ... elif ...` chain of `main` writes
for a message's `task_type`; `Option.none` for an unrecognized or
missing `task_type` (no branch taken). -/
def slotOfTaskType : Option String → Option Slot
  | some "stock_data_ready" => some .stock_data
  | some "news_ready" => some .news
  | some "ml_prediction_ready" => some .ml_prediction
  | some "ml_technical_ready" => some .ml_technical
  | some "ml_sentiment_ready" => some .ml_sentiment
  | some "llm_sentiment_ready" => some .llm_sentiment
  | some "llm_summary_ready" => some .llm_summary
  | some "llm_insights_ready" => some .llm_insights
  | _ => Option.none

/-- The `send_progress` call paired with each slot's branch in `main`:
a fixed percent and step per `task_type`, none for `stock_data` and
`news`. -/
def progressOfSlot : Slot → Option (Nat × String)
  | .stock_data => Option.none
  | .news => Option.none
  | .ml_prediction => some (40, "ML predictions complete")
  | .ml_technical => some (45, "Technical analysis complete")
  | .ml_sentiment => some (50, "Sentiment analysis complete")
  | .llm_sentiment => some (60, "LLM sentiment complete")
  | .llm_summary => some (70, "News summary complete")
  | .llm_insights => some (90, "AI insights complete")

/-- The merge phase of `main`: always `update_task_field` the ticker,
update `llm_config` `if llm_config:` (truthiness), then the branch for
the message's `task_type` updates its one slot and sends its progress
callback. Returns the task entry afterwards and the callbacks sent. -/
def applyMessage (h : TaskHash) (m : Message) : TaskHash × List Callback :=
  let h1 := update_task_field h .ticker m.ticker
  let h2 := if truthy m.llm_config then update_task_field h1 .llm_config m.llm_config else h1
  match slotOfTaskType m.task_type with
  | Option.none => (h2, [])
  | some s =>
    let h3 := update_task_field h2 (.ofSlot s) m.data
    match progressOfSlot s with
    | Option.none => (h3, [])
    | some (p, step) => (h3, [send_progress m.task_id p step])

/-- The outcome of one `main` invocation: the task entry afterwards, the
callbacks sent, and whether an exception escaped `main` (the re-`raise`
in its `except` block). For an already-parsed message and an available
Redis the body has no raise path — `_send_callback` swallows its own
errors — so `raised` is `false` on every branch of the model; the raise
paths (body JSON decode, Redis transport) lie outside the embedding. -/
structure MainOut where
  store : TaskHash
  sends : List Callback
  raised : Bool
deriving DecidableEq, Repr

/-- `main(msg)` on one parsed message: merge phase, then re-read all
fields (`get_task_results`) and `check_completion`. -/
def runMain (h : TaskHash) (m : Message) : MainOut :=
  let step1 := applyMessage h m
  let results := get_task_results step1.1
  let step2 := check_completion step1.1 m.task_id results
  { store := step2.1, sends := step1.2 ++ step2.2, raised := false }

/-- Sequential delivery of a list of messages for the task, collecting
every callback sent. -/
def runEvents : TaskHash → List Message → TaskHash × List Callback
  | h, [] => (h, [])
  | h, m :: ms =>
    ((runEvents (runMain h m).store ms).1,
     (runMain h m).sends ++ (runEvents (runMain h m).store ms).2)

/-! ### The in-memory aggregator (`src/azure-functions/aggregate_functions/__init__.py`)

A second source variant keeps partial results in the module-level dict
`_partial_results`; the store is modelled as the one entry under the
event's `task_id` (`Option.none` when `task_id not in _partial_results`).
Its phase logic (`check_and_proceed`) is shared, with an `elif` chain
instead of early returns, by `_check_and_proceed` in
`src/backend/app/workers/queue_worker.py`. -/

/-- One task's entry in `_partial_results`: the dict initialized on the
first event for the `task_id`. -/
structure Results2 where
  ticker : PyVal
  stock_data : PyVal
  news : PyVal
  sentiment : PyVal
  summary : PyVal
  insights : PyVal
  embedding_id : PyVal
deriving DecidableEq, Repr

/-- Python `d.get(key, default)` on a dict (keys are unique, so
first-match lookup). -/
def dictGet : PyDict → String → PyVal → PyVal
  | .nil, _, d => d
  | .cons k v tl, key, d => if k == key then v else dictGet tl key d

/-- `article.get("title", "")`: `Option.none` when Python raises
(`article` is not a dict and has no `.get`). -/
def getTitle : PyVal → Option PyVal
  | .dictv kvs => some (dictGet kvs "title" (.str ""))
  | _ => Option.none

/-- The comprehension body over the articles of `results["news"]`,
left to right; `Option.none` when Python raises at some article. -/
def headlinesList : PyList → Option PyList
  | .nil => some .nil
  | .cons a tl =>
    match getTitle a, headlinesList tl with
    | some t, some ts => some (.cons t ts)
    | _, _ => Option.none

/-- `[article.get("title", "") for article in results["news"]]`:
`Option.none` when Python raises (`news` is not a list of dicts; a
non-list `news` either is not iterable or yields non-dict items). -/
def headlines : PyVal → Option PyList
  | .listv xs => headlinesList xs
  | _ => Option.none

/-- A message `check_and_proceed` hands back for the Service Bus output
binding; the `timestamp` entry (`datetime.utcnow().isoformat()`) is
wall-clock and not modelled. -/
structure OutMsg2 where
  task_type : String
  task_id : PyVal
  ticker : PyVal
  data : PyVal
deriving DecidableEq, Repr

/-- The outcome of one in-memory `main` invocation: the message set on
the output binding, whether `save_report` ran (the database write itself
is outside the embedding), and whether an exception escaped `main`. -/
structure V2Out where
  next : Option OutMsg2
  saved : Bool
  raised : Bool
deriving DecidableEq, Repr

/-- `check_and_proceed(task_id, results, outputSbMsg)`: the three
guarded phases, each ending in `return`, evaluated in order against the
current entry; truthiness guards as in the source. Returns the entry
afterwards (`Option.none` after `del _partial_results[task_id]`) and
the outcome. -/
def check_and_proceedV2 (task_id : PyVal) (res : Results2) : Option Results2 × V2Out :=
  if truthy res.stock_data && truthy res.news && !truthy res.sentiment then
    match headlines res.news with
    | some hs =>
      (some res,
       { next := some { task_type := "analyze_sentiment", task_id := task_id,
                        ticker := res.ticker,
                        data := .dictv (.cons "headlines" (.listv hs) .nil) },
         saved := false, raised := false })
    | Option.none => (some res, { next := Option.none, saved := false, raised := true })
  else if truthy res.stock_data && truthy res.sentiment && truthy res.summary &&
          !truthy res.insights then
    (some res,
     { next := some { task_type := "generate_insights", task_id := task_id,
                      ticker := res.ticker,
                      data := .dictv (.cons "stock_data" res.stock_data
                        (.cons "sentiment" res.sentiment
                          (.cons "summary" res.summary .nil))) },
       saved := false, raised := false })
  else if truthy res.stock_data && truthy res.news && truthy res.sentiment &&
          truthy res.summary && truthy res.insights then
    (Option.none, { next := Option.none, saved := true, raised := false })
  else
    (some res, { next := Option.none, saved := false, raised := false })

/-- The entry field the `if task_type == ... elif ...` chain of the
in-memory `main` writes; `Option.none` when no branch matches. -/
inductive Slot2 where
  | stock_data | news | sentiment | summary | insights | embedding_id
deriving DecidableEq, Repr

def slot2OfTaskType : Option String → Option Slot2
  | some "stock_data_ready" => some .stock_data
  | some "news_ready" => some .news
  | some "sentiment_ready" => some .sentiment
  | some "summary_ready" => some .summary
  | some "insights_ready" => some .insights
  | some "embedding_ready" => some .embedding_id
  | _ => Option.none

def Results2.set (res : Results2) : Slot2 → PyVal → Results2
  | .stock_data, v => { res with stock_data := v }
  | .news, v => { res with news := v }
  | .sentiment, v => { res with sentiment := v }
  | .summary, v => { res with summary := v }
  | .insights, v => { res with insights := v }
  | .embedding_id, v => { res with embedding_id := v }

/-- An aggregate-queue message as the in-memory `main` reads it. -/
structure Message2 where
  task_type : Option String
  task_id : PyVal
  ticker : PyVal
  data : PyVal
deriving DecidableEq, Repr

/-- The merge phase of the in-memory `main`: initialize the entry on
first sight of the `task_id` (this is the only place `ticker` is
stored), then store the message's result in its field. -/
def mergeV2 (st : Option Results2) (m : Message2) : Results2 :=
  let res0 := st.getD
    { ticker := m.ticker, stock_data := .pyNone, news := .pyNone,
      sentiment := .pyNone, summary := .pyNone, insights := .pyNone,
      embedding_id := .pyNone }
  match slot2OfTaskType m.task_type with
  | some s => res0.set s m.data
  | Option.none => res0

/-- The in-memory `main` on one parsed message: merge, then
`check_and_proceed`. -/
def mainV2 (st : Option Results2) (m : Message2) : Option Results2 × V2Out :=
  check_and_proceedV2 m.task_id (mergeV2 st m)

/-- Sequential delivery of a list of messages for one task in the
in-memory variant, collecting each invocation's outcome. -/
def runEventsV2 : Option Results2 → List Message2 → Option Results2 × List V2Out
  | st, [] => (st, [])
  | st, m :: ms =>
    let r := mainV2 st m
    let rest := runEventsV2 r.1 ms
    (rest.1, r.2 :: rest.2)

/-- How many phase-2 work request batches (`analyze_sentiment`
messages) a run emitted. -/
def phase2Count (outs : List V2Out) : Nat :=
  (outs.filterMap (fun o => o.next)).countP (fun w => w.task_type == "analyze_sentiment")

/-! ### Definitions used to state the claims -/

/-- The completion predicate as the specification words it: the five
statistical slots are present, plus the three LLM slots whenever the
task is LLM-enabled (a stored `llm_config` that `is not None`). C1
compares it with `all_complete`, the code's predicate. -/
def specRequiredPresent (res : Snapshot) : Prop :=
  res.stock_data ≠ .pyNone ∧ res.news ≠ .pyNone ∧ res.ml_prediction ≠ .pyNone ∧
  res.ml_technical ≠ .pyNone ∧ res.ml_sentiment ≠ .pyNone ∧
  (res.llm_config ≠ .pyNone →
    res.llm_sentiment ≠ .pyNone ∧ res.llm_summary ≠ .pyNone ∧ res.llm_insights ≠ .pyNone)

/-- The required slots of a task: the five statistical slots, plus the
three LLM slots when the task is LLM-enabled. -/
def requiredSlots (llmOn : Bool) : List Slot :=
  if llmOn then
    [.stock_data, .news, .ml_prediction, .ml_technical, .ml_sentiment,
     .llm_sentiment, .llm_summary, .llm_insights]
  else
    [.stock_data, .news, .ml_prediction, .ml_technical, .ml_sentiment]

/-- The `task_type` string of the event announcing a result for slot
`s` (the lexical inverse of `slotOfTaskType`). -/
def taskTypeOf : Slot → String
  | .stock_data => "stock_data_ready"
  | .news => "news_ready"
  | .ml_prediction => "ml_prediction_ready"
  | .ml_technical => "ml_technical_ready"
  | .ml_sentiment => "ml_sentiment_ready"
  | .llm_sentiment => "llm_sentiment_ready"
  | .llm_summary => "llm_summary_ready"
  | .llm_insights => "llm_insights_ready"

/-- The result event for slot `s` of one task whose events all carry
`task_id = tid`, `ticker = tk`, `llm_config = cfg` and payload `p s`. -/
def mkEvent (tid tk cfg : PyVal) (p : Slot → PyVal) (s : Slot) : Message :=
  { task_type := some (taskTypeOf s), task_id := tid, ticker := tk,
    data := p s, llm_config := cfg }

/-- The snapshot a full delivery of the required result events builds:
every required slot holds its payload, the LLM slots stay `None` for an
LLM-disabled task. -/
def canonicalSnapshot (tk cfg : PyVal) (p : Slot → PyVal) : Snapshot where
  stock_data := p .stock_data
  news := p .news
  ml_prediction := p .ml_prediction
  ml_technical := p .ml_technical
  ml_sentiment := p .ml_sentiment
  llm_sentiment := if truthy cfg then p .llm_sentiment else .pyNone
  llm_summary := if truthy cfg then p .llm_summary else .pyNone
  llm_insights := if truthy cfg then p .llm_insights else .pyNone
  llm_config := if truthy cfg then cfg else .pyNone
  ticker := tk

/-- The one completed notification a full delivery of the required
result events emits. -/
def canonicalCompleted (tid tk cfg : PyVal) (p : Slot → PyVal) : Callback :=
  send_completed_with_data tid tk (canonicalSnapshot tk cfg p)

/-- The task hash after the merge phases of events for the slots in `S`
(one merge at least), all events sharing `tk`, `cfg` and payloads `p`. -/
def hashOf (tk cfg : PyVal) (p : Slot → PyVal) (S : List Slot) : TaskHash where
  ticker := some tk
  llm_config := if truthy cfg then some cfg else Option.none
  stock_data := if Slot.stock_data ∈ S then some (p .stock_data) else Option.none
  news := if Slot.news ∈ S then some (p .news) else Option.none
  ml_prediction := if Slot.ml_prediction ∈ S then some (p .ml_prediction) else Option.none
  ml_technical := if Slot.ml_technical ∈ S then some (p .ml_technical) else Option.none
  ml_sentiment := if Slot.ml_sentiment ∈ S then some (p .ml_sentiment) else Option.none
  llm_sentiment := if Slot.llm_sentiment ∈ S then some (p .llm_sentiment) else Option.none
  llm_summary := if Slot.llm_summary ∈ S then some (p .llm_summary) else Option.none
  llm_insights := if Slot.llm_insights ∈ S then some (p .llm_insights) else Option.none
  ttl := some TASK_TTL

/-- The progress callbacks one `main` invocation sends, as a table of
the message's `task_type` alone (claim C6 relates the emitted progress
to the task state; this table has no state argument). -/
def progressSends (m : Message) : List Callback :=
  match m.task_type with
  | some "ml_prediction_ready" => [send_progress m.task_id 40 "ML predictions complete"]
  | some "ml_technical_ready" => [send_progress m.task_id 45 "Technical analysis complete"]
  | some "ml_sentiment_ready" => [send_progress m.task_id 50 "Sentiment analysis complete"]
  | some "llm_sentiment_ready" => [send_progress m.task_id 60 "LLM sentiment complete"]
  | some "llm_summary_ready" => [send_progress m.task_id 70 "News summary complete"]
  | some "llm_insights_ready" => [send_progress m.task_id 90 "AI insights complete"]
  | _ => []

/-- The progress notifications (status `"processing"`) among a run's
callbacks. -/
def progressOnly (cs : List Callback) : List Callback :=
  cs.filter (fun c => c.status == "processing")

/-- A concrete statistical result event for scenario runs: `task_id`
`"t1"`, ticker `"AAPL"`, payload `1`, no LLM config. -/
def statEvent (t : String) : Message :=
  { task_type := some t, task_id := .str "t1", ticker := .str "AAPL",
    data := .num 1, llm_config := .pyNone }

/-- The five statistical result events of the `"t1"` task, in the
nominal order. -/
def fiveStatEvents : List Message :=
  [statEvent "stock_data_ready", statEvent "news_ready",
   statEvent "ml_prediction_ready", statEvent "ml_technical_ready",
   statEvent "ml_sentiment_ready"]

/-- A concrete event for scenario runs of the in-memory variant. -/
def v2Event (t : String) (d : PyVal) : Message2 :=
  { task_type := some t, task_id := .str "t1", ticker := .str "AAPL", data := d }

/-- A concrete well-formed news payload: one article with a title. -/
def newsPayloadEx : PyVal :=
  .listv (.cons (.dictv (.cons "title" (.str "a") .nil)) .nil)

/-- A concrete LLM configuration payload. -/
def llmConfigEx : PyVal := .dictv (.cons "provider" (.str "openai") .nil)

/-- Scenario B mid-state: an LLM-enabled task whose five statistical
slots and first LLM slot are present, waiting for the last two LLM
slots. -/
def scenarioBHash : TaskHash where
  ticker := some (.str "AAPL")
  llm_config := some llmConfigEx
  stock_data := some (.num 1)
  news := some (.num 2)
  ml_prediction := some (.num 3)
  ml_technical := some (.num 4)
  ml_sentiment := some (.num 5)
  llm_sentiment := some (.num 6)
  llm_summary := Option.none
  llm_insights := Option.none
  ttl := some TASK_TTL

/-- Scenario B's next event: the second of the three LLM results. -/
def scenarioBEvent : Message :=
  { task_type := some "llm_summary_ready", task_id := .str "t1",
    ticker := .str "AAPL", data := .num 7, llm_config := llmConfigEx }

/-- A malformed event: its `task_type` matches no branch of `main`. -/
def badTaskTypeEvent : Message :=
  { task_type := some "bogus_ready", task_id := .str "t1",
    ticker := .str "AAPL", data := .num 1, llm_config := .pyNone }

/-- A first event carrying ticker `"AAPL"`. -/
def tickerEventA : Message :=
  { task_type := some "stock_data_ready", task_id := .str "t1",
    ticker := .str "AAPL", data := .num 1, llm_config := .pyNone }

/-- A later event for the same task carrying a different ticker. -/
def tickerEventB : Message :=
  { task_type := some "news_ready", task_id := .str "t1",
    ticker := .str "MSFT", data := .num 2, llm_config := .pyNone }

/-- An in-memory entry right after its `stock_data` event. -/
def v2AfterStock : Results2 :=
  { ticker := .str "AAPL", stock_data := .num 1, news := .pyNone,
    sentiment := .pyNone, summary := .pyNone, insights := .pyNone,
    embedding_id := .pyNone }

/-- The same entry after its `news` event as well. -/
def v2AfterStockNews : Results2 :=
  { v2AfterStock with news := newsPayloadEx }

/-- An in-memory entry whose sentiment result has arrived. -/
def v2WithSentiment : Results2 :=
  { ticker := .str "AAPL", stock_data := .num 1, news := newsPayloadEx,
    sentiment := .num 3, summary := .pyNone, insights := .pyNone,
    embedding_id := .pyNone }

/-! ## Theorems

Helper lemmas come first; each claim then gets one theorem (with its
witness or counterexample where called for). -/

theorem isNotNone_iff (v : PyVal) : isNotNone v = true ↔ v ≠ .pyNone := by
  cases v <;> simp [isNotNone]

theorem all_complete_iff_spec (res : Snapshot) :
    all_complete res = true ↔ specRequiredPresent res := by
  by_cases hc : res.llm_config = PyVal.pyNone
  · have hb : isNotNone res.llm_config = false := by rw [hc]; rfl
    simp [all_complete, ml_complete, llm_complete, specRequiredPresent, hb, hc,
      isNotNone_iff, and_assoc]
  · have hb : isNotNone res.llm_config = true := (isNotNone_iff _).mpr hc
    simp [all_complete, ml_complete, llm_complete, specRequiredPresent, hb, hc,
      isNotNone_iff, and_assoc]

theorem completedOf_append (a b : List Callback) :
    completedOf (a ++ b) = completedOf a ++ completedOf b := by
  simp [completedOf]

theorem applyMessage_ticker (h : TaskHash) (m : Message) :
    ((applyMessage h m).1).ticker = some m.ticker := by
  unfold applyMessage
  cases hs : slotOfTaskType m.task_type with
  | none =>
    by_cases hc : truthy m.llm_config <;> simp [hc, update_task_field, TaskHash.set]
  | some s =>
    by_cases hc : truthy m.llm_config <;> cases s <;>
      simp [hc, update_task_field, TaskHash.set, Field.ofSlot, progressOfSlot]

theorem applyMessage_ne_empty (h : TaskHash) (m : Message) :
    (applyMessage h m).1 ≠ emptyHash := by
  intro heq
  have := applyMessage_ticker h m
  rw [heq] at this
  simp [emptyHash] at this

theorem runMain_eq (h : TaskHash) (m : Message) :
    runMain h m =
      if all_complete (get_task_results (applyMessage h m).1) then
        { store := emptyHash,
          sends := (applyMessage h m).2 ++
            [send_completed_with_data m.task_id
              (get_task_results (applyMessage h m).1).ticker
              (get_task_results (applyMessage h m).1)],
          raised := false }
      else
        { store := (applyMessage h m).1, sends := (applyMessage h m).2,
          raised := false } := by
  unfold runMain check_completion
  cases hac : all_complete (get_task_results (applyMessage h m).1) <;> simp [hac]

theorem progressSends_of_slotNone (m : Message)
    (hs : slotOfTaskType m.task_type = Option.none) :
    progressSends m = [] := by
  unfold progressSends
  split <;> simp_all [slotOfTaskType]

theorem applyMessage_sends (h : TaskHash) (m : Message) :
    (applyMessage h m).2 = progressSends m := by
  cases hs : slotOfTaskType m.task_type with
  | none => simp [applyMessage, hs, progressSends_of_slotNone m hs]
  | some s =>
    have ht : m.task_type = some (taskTypeOf s) := by
      cases hmt : m.task_type with
      | none => rw [hmt] at hs; simp [slotOfTaskType] at hs
      | some t =>
        rw [hmt] at hs
        unfold slotOfTaskType at hs
        split at hs <;> (try injection hs with hs) <;> (try subst hs) <;>
          simp_all [taskTypeOf]
    cases s <;>
      simp [applyMessage, ht, slotOfTaskType, progressSends, progressOfSlot, taskTypeOf]

theorem completedOf_applyMessage (h : TaskHash) (m : Message) :
    completedOf (applyMessage h m).2 = [] := by
  rw [applyMessage_sends]
  unfold progressSends
  split <;> simp [completedOf, send_progress]

theorem completedOf_completed_send (tid tk : PyVal) (res : Snapshot) :
    completedOf [send_completed_with_data tid tk res] =
      [send_completed_with_data tid tk res] := by
  simp [completedOf, send_completed_with_data]

theorem all_complete_false_of_missing (res : Snapshot) (s : Slot)
    (hmem : s ∈ requiredSlots (isNotNone res.llm_config))
    (hval : res.get s = PyVal.pyNone) :
    all_complete res = false := by
  cases hc : isNotNone res.llm_config <;> rw [hc] at hmem <;>
    cases s <;>
      simp_all [requiredSlots, all_complete, ml_complete, llm_complete,
        Snapshot.get, isNotNone]

/-- C1: the completion predicate (`all_complete`) holds for a snapshot
iff the five statistical slots are all present, plus the three LLM
slots whenever the task is LLM-enabled; and one `main` step finalizes —
emits the completed notification and deletes the task entry — exactly
when the predicate holds of the post-merge snapshot. -/
theorem C1_completion_predicate (h : TaskHash) (m : Message) :
    (all_complete (get_task_results (applyMessage h m).1) = true ↔
       specRequiredPresent (get_task_results (applyMessage h m).1)) ∧
    (completedOf (runMain h m).sends ≠ [] ↔
       specRequiredPresent (get_task_results (applyMessage h m).1)) ∧
    ((runMain h m).store = emptyHash ↔
       specRequiredPresent (get_task_results (applyMessage h m).1)) := by
  refine ⟨all_complete_iff_spec _, ?_, ?_⟩ <;>
    rw [← all_complete_iff_spec, runMain_eq] <;>
      cases hac : all_complete (get_task_results (applyMessage h m).1) <;>
        simp [hac, completedOf_append, completedOf_applyMessage,
          completedOf_completed_send, applyMessage_ne_empty h m]

/-- C4: an LLM-enabled post-merge snapshot with at least one required
slot unset falsifies the completion predicate: `main` emits no
completed notification, does not finalize, and the task entry is still
present in the store. -/
theorem C4_no_premature_completion (h : TaskHash) (m : Message)
    (hllm : (get_task_results (applyMessage h m).1).llm_config ≠ PyVal.pyNone)
    (hmiss : ∃ s ∈ requiredSlots true,
      (get_task_results (applyMessage h m).1).get s = PyVal.pyNone) :
    all_complete (get_task_results (applyMessage h m).1) = false ∧
    completedOf (runMain h m).sends = [] ∧
    (runMain h m).store = (applyMessage h m).1 ∧
    (runMain h m).store ≠ emptyHash := by
  obtain ⟨s, hmem, hval⟩ := hmiss
  have hb : isNotNone (get_task_results (applyMessage h m).1).llm_config = true :=
    (isNotNone_iff _).mpr hllm
  have hac : all_complete (get_task_results (applyMessage h m).1) = false :=
    all_complete_false_of_missing _ s (by rw [hb]; exact hmem) hval
  refine ⟨hac, ?_, ?_, ?_⟩ <;>
    rw [runMain_eq] <;>
      simp [hac, completedOf_applyMessage, applyMessage_ne_empty h m]

/-- C4 witness: scenario B — five statistical slots and one LLM slot
present, the second LLM result arrives, the third is still missing; no
completion fires and the entry survives. -/
theorem C4_no_premature_completion_witness :
    all_complete (get_task_results (applyMessage scenarioBHash scenarioBEvent).1) = false ∧
    completedOf (runMain scenarioBHash scenarioBEvent).sends = [] ∧
    (runMain scenarioBHash scenarioBEvent).store = (applyMessage scenarioBHash scenarioBEvent).1 ∧
    (runMain scenarioBHash scenarioBEvent).store ≠ emptyHash :=
  C4_no_premature_completion scenarioBHash scenarioBEvent (by decide)
    ⟨.llm_insights, by decide, by decide⟩

/-- C5: `update_task_field` sets exactly the one named field to the
payload, leaves every other field of the entry unchanged, resets the
TTL to 3600 seconds on every write, and the immediately following
`get_task_results` snapshot carries that payload in that field. -/
theorem C5_merge_is_framed (h : TaskHash) (f : Field) (v : PyVal) :
    (update_task_field h f v).get f = some v ∧
    (∀ g : Field, g ≠ f → (update_task_field h f v).get g = h.get g) ∧
    (update_task_field h f v).ttl = some 3600 ∧
    (get_task_results (update_task_field h f v)).field f = v := by
  refine ⟨?_, ?_, rfl, ?_⟩
  · cases f <;> rfl
  · intro g hg
    cases f <;> cases g <;>
      simp_all [update_task_field, TaskHash.set, TaskHash.get]
  · cases f <;> rfl

/-- C10: the completed notification's `data` object is built from
exactly the eight result slots; two snapshots that agree on those
slots, the ticker and the task id — both LLM-enabled, with possibly
different `llm_config` contents — yield identical `check_completion`
callbacks, so the stored LLM credentials never reach the progress
listener. -/
theorem C10_llm_config_not_forwarded (tid : PyVal) (h1 h2 : TaskHash)
    (res1 res2 : Snapshot)
    (hslots : ∀ s : Slot, res1.get s = res2.get s)
    (htick : res1.ticker = res2.ticker)
    (hc1 : res1.llm_config ≠ PyVal.pyNone) (hc2 : res2.llm_config ≠ PyVal.pyNone) :
    (check_completion h1 tid res1).2 = (check_completion h2 tid res2).2 ∧
    ∀ c ∈ (check_completion h1 tid res1).2, c.data = some (completedDataOf res1) := by
  have e1 : res1.stock_data = res2.stock_data := hslots .stock_data
  have e2 : res1.news = res2.news := hslots .news
  have e3 : res1.ml_prediction = res2.ml_prediction := hslots .ml_prediction
  have e4 : res1.ml_technical = res2.ml_technical := hslots .ml_technical
  have e5 : res1.ml_sentiment = res2.ml_sentiment := hslots .ml_sentiment
  have e6 : res1.llm_sentiment = res2.llm_sentiment := hslots .llm_sentiment
  have e7 : res1.llm_summary = res2.llm_summary := hslots .llm_summary
  have e8 : res1.llm_insights = res2.llm_insights := hslots .llm_insights
  have b1 : isNotNone res1.llm_config = true := (isNotNone_iff _).mpr hc1
  have b2 : isNotNone res2.llm_config = true := (isNotNone_iff _).mpr hc2
  have hac : all_complete res1 = all_complete res2 := by
    simp [all_complete, ml_complete, llm_complete, b1, b2, e1, e2, e3, e4, e5, e6, e7, e8]
  cases hb : all_complete res2 with
  | false =>
    have ha : all_complete res1 = false := by rw [hac, hb]
    simp [check_completion, ha, hb]
  | true =>
    have ha : all_complete res1 = true := by rw [hac, hb]
    simp [check_completion, ha, hb, send_completed_with_data, completedDataOf,
      e1, e2, e3, e4, e5, e6, e7, e8, htick]

theorem get_task_results_slot (h : TaskHash) (s : Slot) :
    (get_task_results h).get s = (h.get (Field.ofSlot s)).getD PyVal.pyNone := by
  cases s <;> rfl

theorem applyMessage_other_slot (h : TaskHash) (m : Message) (s : Slot)
    (hne : slotOfTaskType m.task_type ≠ some s) :
    ((applyMessage h m).1).get (Field.ofSlot s) = h.get (Field.ofSlot s) := by
  cases hs : slotOfTaskType m.task_type with
  | none =>
    cases s <;> by_cases hc : truthy m.llm_config <;>
      simp [applyMessage, hs, hc, update_task_field, TaskHash.set, TaskHash.get,
        Field.ofSlot]
  | some s' =>
    rw [hs] at hne
    cases s' <;> cases s <;> by_cases hc : truthy m.llm_config <;>
      simp_all [applyMessage, hs, hc, update_task_field, TaskHash.set, TaskHash.get,
        Field.ofSlot, progressOfSlot]

theorem applyMessage_ttl (h : TaskHash) (m : Message) :
    ((applyMessage h m).1).ttl = some TASK_TTL := by
  cases hs : slotOfTaskType m.task_type with
  | none =>
    by_cases hc : truthy m.llm_config <;>
      simp [applyMessage, hs, hc, update_task_field, TaskHash.set]
  | some s =>
    by_cases hc : truthy m.llm_config <;> cases s <;>
      simp [applyMessage, hs, hc, update_task_field, TaskHash.set, Field.ofSlot,
        progressOfSlot]

theorem stock_data_mem_required (b : Bool) : Slot.stock_data ∈ requiredSlots b := by
  cases b <;> simp [requiredSlots]

theorem news_mem_required (b : Bool) : Slot.news ∈ requiredSlots b := by
  cases b <;> simp [requiredSlots]

theorem emptyHash_slot (s : Slot) : emptyHash.get (Field.ofSlot s) = Option.none := by
  cases s <;> rfl

/-- C2 counterexample: redelivering all five statistical result events
after the finalize-and-delete rebuilds the task and fires finalize a
second time — two completed notifications over one sequence of
delivered events, so the finalize step does not fire at most once over
every sequence containing duplicates. -/
theorem C2_finalize_twice_counterexample :
    (completedOf (runEvents emptyHash (fiveStatEvents ++ fiveStatEvents)).2).length = 2 ∧
    ¬ (completedOf (runEvents emptyHash (fiveStatEvents ++ fiveStatEvents)).2).length ≤ 1 := by
  constructor
  · rfl
  · decide

/-- C2 (amended): finalize fires at most once per task lifetime: after
the finalize-and-delete the entry is gone, and one stale event
processed on the emptied entry can never re-satisfy the completion
predicate — it emits no completed notification and raises no error.
Only redelivery of events covering all required slots, which rebuilds
the task from scratch, fires finalize again. -/
theorem C2_stale_event_is_noop (m : Message) :
    all_complete (get_task_results (applyMessage emptyHash m).1) = false ∧
    completedOf (runMain emptyHash m).sends = [] ∧
    (runMain emptyHash m).raised = false := by
  have key : ∀ s : Slot, slotOfTaskType m.task_type ≠ some s →
      (get_task_results (applyMessage emptyHash m).1).get s = PyVal.pyNone := by
    intro s hne
    rw [get_task_results_slot, applyMessage_other_slot _ _ _ hne, emptyHash_slot]
    rfl
  have hmiss : all_complete (get_task_results (applyMessage emptyHash m).1) = false := by
    by_cases hstock : slotOfTaskType m.task_type = some Slot.stock_data
    · exact all_complete_false_of_missing _ .news (news_mem_required _)
        (key .news (by rw [hstock]; intro hcon; injection hcon with hcon; cases hcon))
    · exact all_complete_false_of_missing _ .stock_data (stock_data_mem_required _)
        (key .stock_data hstock)
  refine ⟨hmiss, ?_, ?_⟩ <;>
    rw [runMain_eq] <;> simp [hmiss, completedOf_applyMessage]

theorem progressOnly_append (a b : List Callback) :
    progressOnly (a ++ b) = progressOnly a ++ progressOnly b := by
  simp [progressOnly]

theorem progressOnly_progressSends (m : Message) :
    progressOnly (progressSends m) = progressSends m := by
  unfold progressSends
  split <;> simp [progressOnly, send_progress]

theorem progressOnly_completed_send (tid tk : PyVal) (res : Snapshot) :
    progressOnly [send_completed_with_data tid tk res] = [] := by
  simp [progressOnly, send_completed_with_data]

/-- C6 (amended): the progress notifications one `main` invocation
sends are a fixed table of the event's `task_type` alone — independent
of the task's snapshot, so duplicate delivery of the same slot re-sends
the identical percentage; but the emitted sequence is not monotone in
the delivery order (see the counterexample). -/
theorem C6_progress_is_per_event_constant (h : TaskHash) (m : Message) :
    progressOnly (runMain h m).sends = progressSends m := by
  rw [runMain_eq]
  cases hac : all_complete (get_task_results (applyMessage h m).1) <;>
    simp [hac, progressOnly_append, applyMessage_sends, progressOnly_progressSends,
      progressOnly_completed_send]

/-- C6 counterexample: delivering `ml_sentiment_ready` before
`ml_prediction_ready` emits progress 50 followed by progress 40 — the
emitted progress sequence decreases, so the percentage is neither
monotone over delivery orders nor a function of the set of slots
present in the snapshot. -/
theorem C6_progress_decreases_counterexample :
    ((progressOnly (runEvents emptyHash
        [statEvent "ml_sentiment_ready", statEvent "ml_prediction_ready"]).2).map
      (fun c => c.progress)) = [50, 40] ∧ ¬ (50 : Nat) ≤ 40 := by
  constructor
  · rfl
  · decide

/-- C8 counterexample: an event with an unrecognized `task_type` is not
rejected by `main`: it mutates the addressed task entry (the ticker
field is written and the TTL refreshed) and completes without
surfacing any processing failure. -/
theorem C8_malformed_event_counterexample :
    (runMain emptyHash badTaskTypeEvent).store ≠ emptyHash ∧
    (runMain emptyHash badTaskTypeEvent).store.ticker = some (.str "AAPL") ∧
    (runMain emptyHash badTaskTypeEvent).raised = false := by
  refine ⟨?_, rfl, rfl⟩
  decide

/-- C8 (amended): an event whose `task_type` matches no branch (and
likewise one missing `task_id`, which addresses the entry keyed
`"task:None"`) is absorbed without surfacing a processing failure and
writes no result slot — but it does mutate the addressed entry: the
ticker is written and the TTL refreshed. -/
theorem C8_malformed_event_behavior (h : TaskHash) (m : Message)
    (hbad : slotOfTaskType m.task_type = Option.none) :
    (∀ s : Slot, ((applyMessage h m).1).get (Field.ofSlot s) = h.get (Field.ofSlot s)) ∧
    ((applyMessage h m).1).ticker = some m.ticker ∧
    ((applyMessage h m).1).ttl = some TASK_TTL ∧
    (applyMessage h m).2 = [] ∧
    (runMain h m).raised = false := by
  refine ⟨?_, applyMessage_ticker h m, applyMessage_ttl h m, ?_, rfl⟩
  · intro s
    exact applyMessage_other_slot h m s (by rw [hbad]; intro hcon; cases hcon)
  · rw [applyMessage_sends, progressSends_of_slotNone m hbad]

/-- C8 witness: the unrecognized-task_type event, processed on an empty
entry, is absorbed quietly with only ticker/TTL written. -/
theorem C8_malformed_event_behavior_witness :
    (∀ s : Slot, ((applyMessage emptyHash badTaskTypeEvent).1).get (Field.ofSlot s) =
      emptyHash.get (Field.ofSlot s)) ∧
    ((applyMessage emptyHash badTaskTypeEvent).1).ticker = some badTaskTypeEvent.ticker ∧
    ((applyMessage emptyHash badTaskTypeEvent).1).ttl = some TASK_TTL ∧
    (applyMessage emptyHash badTaskTypeEvent).2 = [] ∧
    (runMain emptyHash badTaskTypeEvent).raised = false :=
  C8_malformed_event_behavior emptyHash badTaskTypeEvent rfl

theorem check_and_proceedV2_entry (tid : PyVal) (res res' : Results2)
    (h : (check_and_proceedV2 tid res).1 = some res') : res' = res := by
  unfold check_and_proceedV2 at h
  split at h
  · split at h <;> simp_all
  · split at h
    · simp_all
    · split at h <;> simp_all

theorem mergeV2_ticker (res : Results2) (m : Message2) :
    (mergeV2 (some res) m).ticker = res.ticker := by
  unfold mergeV2
  cases hs : slot2OfTaskType m.task_type with
  | none => rfl
  | some s => cases s <;> rfl

/-- C9 counterexample: in the Redis aggregator the stored ticker is
`"AAPL"` after the first event and `"MSFT"` after a later event for the
same task carrying a different ticker — the ticker is not immutable
after the first event. -/
theorem C9_ticker_overwritten_counterexample :
    ((runEvents emptyHash [tickerEventA]).1).ticker = some (.str "AAPL") ∧
    ((runEvents emptyHash [tickerEventA, tickerEventB]).1).ticker = some (.str "MSFT") := by
  constructor <;> rfl

/-- C9 (amended): the Redis aggregator overwrites the stored ticker
with the event's own ticker on every processed event (last-write-wins),
so a later event with a different ticker does change it; in the
in-memory variant the ticker is fixed when the first event creates the
entry and no later event for an existing entry changes it. -/
theorem C9_ticker_semantics (h : TaskHash) (m : Message) (res res' : Results2)
    (m2 : Message2) (hrun : (mainV2 (some res) m2).1 = some res') :
    ((applyMessage h m).1).ticker = some m.ticker ∧ res'.ticker = res.ticker := by
  refine ⟨applyMessage_ticker h m, ?_⟩
  have hentry : res' = mergeV2 (some res) m2 :=
    check_and_proceedV2_entry m2.task_id _ res' hrun
  rw [hentry, mergeV2_ticker]

/-- C9 witness: a concrete later `news` event leaves the in-memory
entry's ticker unchanged while the Redis merge stores the event's
ticker. -/
theorem C9_ticker_semantics_witness :
    ((applyMessage emptyHash tickerEventA).1).ticker = some tickerEventA.ticker ∧
    v2AfterStockNews.ticker = v2AfterStock.ticker :=
  C9_ticker_semantics emptyHash tickerEventA v2AfterStock v2AfterStockNews
    (v2Event "news_ready" newsPayloadEx) (by decide)

theorem truthy_pyNone : truthy PyVal.pyNone = false := rfl

/-- C7 counterexample: `stock_data` and `news` arrive and one phase-2
batch is emitted; a duplicate `news` event delivered afterwards, while
the task still exists and sentiment has not yet arrived, passes the
guard again and a second phase-2 batch is emitted. -/
theorem C7_duplicate_news_counterexample :
    phase2Count (runEventsV2 Option.none
      [v2Event "stock_data_ready" (.num 1), v2Event "news_ready" newsPayloadEx,
       v2Event "news_ready" newsPayloadEx]).2 = 2 ∧
    ¬ phase2Count (runEventsV2 Option.none
      [v2Event "stock_data_ready" (.num 1), v2Event "news_ready" newsPayloadEx,
       v2Event "news_ready" newsPayloadEx]).2 ≤ 1 := by
  constructor
  · rfl
  · decide

/-- C7 (amended): with `stock_data` and `news` delivered once each,
exactly one phase-2 batch is emitted; once the `sentiment` slot is
present a duplicate `news` event emits no further phase-2 batch — but
while sentiment is still unset the guard re-fires on each further
stock/news event (at-least-once, not at-most-once, semantics). -/
theorem C7_phase2_emission (tid tk v w d : PyVal) (hl : PyList)
    (hv : truthy v = true) (hw : truthy w = true) (hhl : headlines w = some hl)
    (res : Results2) (hsent : truthy res.sentiment = true) :
    phase2Count (runEventsV2 Option.none
      [{ task_type := some "stock_data_ready", task_id := tid, ticker := tk, data := v },
       { task_type := some "news_ready", task_id := tid, ticker := tk, data := w }]).2 = 1 ∧
    phase2Count (runEventsV2 (some res)
      [{ task_type := some "news_ready", task_id := tid, ticker := tk, data := d }]).2 = 0 := by
  constructor
  · simp [runEventsV2, mainV2, mergeV2, slot2OfTaskType, Results2.set,
      check_and_proceedV2, truthy_pyNone, hv, hw, hhl, phase2Count]
  · simp only [runEventsV2, mainV2, mergeV2, slot2OfTaskType, Results2.set,
      check_and_proceedV2, Option.getD_some, hsent]
    split_ifs <;> simp_all [phase2Count]

/-- C7 witness: the concrete two-event scenario emits one batch, and a
duplicate `news` on an entry with sentiment present emits none. -/
theorem C7_phase2_emission_witness :
    phase2Count (runEventsV2 Option.none
      [{ task_type := some "stock_data_ready", task_id := .str "t1",
         ticker := .str "AAPL", data := .num 1 },
       { task_type := some "news_ready", task_id := .str "t1",
         ticker := .str "AAPL", data := newsPayloadEx }]).2 = 1 ∧
    phase2Count (runEventsV2 (some v2WithSentiment)
      [{ task_type := some "news_ready", task_id := .str "t1",
         ticker := .str "AAPL", data := newsPayloadEx }]).2 = 0 :=
  C7_phase2_emission (.str "t1") (.str "AAPL") (.num 1) newsPayloadEx newsPayloadEx
    (.cons (.str "a") .nil) (by decide) (by decide) (by decide)
    v2WithSentiment (by decide)

/-- C10 witness: two concrete completed snapshots differing only in
their `llm_config` payloads produce the same callbacks. -/
theorem C10_llm_config_not_forwarded_witness :
    (check_completion emptyHash (.str "t1") (canonicalSnapshot (.str "AAPL") llmConfigEx (fun _ => .num 1))).2 =
      (check_completion emptyHash (.str "t1") (canonicalSnapshot (.str "AAPL") (.str "otherCfg") (fun _ => .num 1))).2 ∧
    ∀ c ∈ (check_completion emptyHash (.str "t1") (canonicalSnapshot (.str "AAPL") llmConfigEx (fun _ => .num 1))).2,
      c.data = some (completedDataOf (canonicalSnapshot (.str "AAPL") llmConfigEx (fun _ => .num 1))) :=
  C10_llm_config_not_forwarded (.str "t1") emptyHash emptyHash _ _
    (fun s => by cases s <;> rfl) rfl (by decide) (by decide)

theorem truthy_isNotNone (v : PyVal) (hv : truthy v = true) : isNotNone v = true := by
  cases v <;> simp_all [truthy, isNotNone]

theorem completedOf_progressSends (m : Message) :
    completedOf (progressSends m) = [] := by
  unfold progressSends
  split <;> simp [completedOf, send_progress]

theorem requiredSlots_nodup (b : Bool) : (requiredSlots b).Nodup := by
  cases b <;> decide

theorem applyMessage_mkEvent_hashOf (tid tk cfg : PyVal) (p : Slot → PyVal)
    (S : List Slot) (s : Slot) :
    (applyMessage (hashOf tk cfg p S) (mkEvent tid tk cfg p s)).1 =
      hashOf tk cfg p (s :: S) := by
  by_cases hc : truthy cfg <;> cases s <;>
    simp [applyMessage, mkEvent, taskTypeOf, slotOfTaskType, update_task_field,
      TaskHash.set, Field.ofSlot, progressOfSlot, hashOf, hc, List.mem_cons]

theorem applyMessage_mkEvent_empty (tid tk cfg : PyVal) (p : Slot → PyVal) (s : Slot) :
    (applyMessage emptyHash (mkEvent tid tk cfg p s)).1 = hashOf tk cfg p [s] := by
  by_cases hc : truthy cfg <;> cases s <;>
    simp [applyMessage, mkEvent, taskTypeOf, slotOfTaskType, update_task_field,
      TaskHash.set, Field.ofSlot, progressOfSlot, hashOf, emptyHash, hc, List.mem_cons]

theorem isNotNone_getD_ite (c : Prop) [Decidable c] (x : PyVal)
    (hx : x ≠ PyVal.pyNone) :
    isNotNone ((if c then some x else Option.none).getD PyVal.pyNone) = decide c := by
  by_cases h : c
  · simp [h, isNotNone_iff, hx]
  · simp [h, isNotNone]

theorem isNotNone_pyNone : isNotNone PyVal.pyNone = false := rfl

theorem all_complete_hashOf (tk cfg : PyVal) (p : Slot → PyVal) (S : List Slot)
    (hp : ∀ s : Slot, p s ≠ PyVal.pyNone) :
    (all_complete (get_task_results (hashOf tk cfg p S)) = true ↔
      ∀ s ∈ requiredSlots (truthy cfg), s ∈ S) := by
  cases hc : truthy cfg
  · simp [all_complete, ml_complete, llm_complete, get_task_results, hashOf, hc,
      isNotNone_getD_ite, hp, isNotNone_pyNone, requiredSlots, and_assoc]
  · have hcfg : isNotNone cfg = true := truthy_isNotNone cfg hc
    simp [all_complete, ml_complete, llm_complete, get_task_results, hashOf, hc,
      isNotNone_getD_ite, hp, hcfg, requiredSlots, and_assoc]

theorem all_complete_hashOf_false (tk cfg : PyVal) (p : Slot → PyVal) (S : List Slot)
    (hp : ∀ s : Slot, p s ≠ PyVal.pyNone) (w : Slot)
    (hw : w ∈ requiredSlots (truthy cfg)) (hwS : w ∉ S) :
    all_complete (get_task_results (hashOf tk cfg p S)) = false := by
  cases hb : all_complete (get_task_results (hashOf tk cfg p S))
  · rfl
  · exact absurd ((all_complete_hashOf tk cfg p S hp).mp hb w hw) hwS

theorem snapshot_canonical (tk cfg : PyVal) (p : Slot → PyVal) (S : List Slot)
    (hiff : ∀ s : Slot, s ∈ S ↔ s ∈ requiredSlots (truthy cfg)) :
    get_task_results (hashOf tk cfg p S) = canonicalSnapshot tk cfg p := by
  cases hc : truthy cfg <;> rw [hc] at hiff <;>
    simp [get_task_results, hashOf, canonicalSnapshot, hc, hiff, requiredSlots,
      Snapshot.mk.injEq]

theorem all_complete_canonical (tk cfg : PyVal) (p : Slot → PyVal)
    (hp : ∀ s : Slot, p s ≠ PyVal.pyNone) :
    all_complete (canonicalSnapshot tk cfg p) = true := by
  have hps : ∀ s : Slot, isNotNone (p s) = true :=
    fun s => (isNotNone_iff _).mpr (hp s)
  cases hc : truthy cfg
  · simp [all_complete, ml_complete, llm_complete, canonicalSnapshot, hc, hps,
      isNotNone_pyNone]
  · have hcfg : isNotNone cfg = true := truthy_isNotNone cfg hc
    simp [all_complete, ml_complete, llm_complete, canonicalSnapshot, hc, hps, hcfg]

theorem runMain_step_fire (tid tk cfg : PyVal) (p : Slot → PyVal)
    (hp : ∀ s : Slot, p s ≠ PyVal.pyNone) (S : List Slot) (u : Slot) (st : TaskHash)
    (hstep : (applyMessage st (mkEvent tid tk cfg p u)).1 = hashOf tk cfg p (u :: S))
    (hiff : ∀ s : Slot, s ∈ u :: S ↔ s ∈ requiredSlots (truthy cfg)) :
    runMain st (mkEvent tid tk cfg p u) =
      { store := emptyHash,
        sends := progressSends (mkEvent tid tk cfg p u) ++ [canonicalCompleted tid tk cfg p],
        raised := false } := by
  rw [runMain_eq, applyMessage_sends, hstep, snapshot_canonical tk cfg p (u :: S) hiff,
    all_complete_canonical tk cfg p hp]
  simp [canonicalCompleted, canonicalSnapshot, mkEvent]

theorem runMain_step_nofire (tid tk cfg : PyVal) (p : Slot → PyVal)
    (hp : ∀ s : Slot, p s ≠ PyVal.pyNone) (S : List Slot) (u w : Slot) (st : TaskHash)
    (hstep : (applyMessage st (mkEvent tid tk cfg p u)).1 = hashOf tk cfg p (u :: S))
    (hw : w ∈ requiredSlots (truthy cfg)) (hwS : w ∉ u :: S) :
    runMain st (mkEvent tid tk cfg p u) =
      { store := hashOf tk cfg p (u :: S),
        sends := progressSends (mkEvent tid tk cfg p u), raised := false } := by
  rw [runMain_eq, applyMessage_sends, hstep,
    all_complete_hashOf_false tk cfg p (u :: S) hp w hw hwS]
  simp

theorem runEvents_cons (h : TaskHash) (m : Message) (ms : List Message) :
    runEvents h (m :: ms) =
      ((runEvents (runMain h m).store ms).1,
       (runMain h m).sends ++ (runEvents (runMain h m).store ms).2) := rfl

theorem runEvents_covering (tid tk cfg : PyVal) (p : Slot → PyVal)
    (hp : ∀ s : Slot, p s ≠ PyVal.pyNone) :
    ∀ (rem done : List Slot), rem ≠ [] →
      ((done ++ rem).Perm (requiredSlots (truthy cfg))) →
      (runEvents (hashOf tk cfg p done) (rem.map (mkEvent tid tk cfg p))).1 = emptyHash ∧
      completedOf (runEvents (hashOf tk cfg p done) (rem.map (mkEvent tid tk cfg p))).2 =
        [canonicalCompleted tid tk cfg p] := by
  intro rem
  induction rem with
  | nil => intro done hne _; exact absurd rfl hne
  | cons u rest ih =>
    intro done _ hperm
    cases rest with
    | nil =>
      have hiff : ∀ s : Slot, s ∈ u :: done ↔ s ∈ requiredSlots (truthy cfg) := by
        intro s
        rw [← hperm.mem_iff]
        simp [List.mem_append, List.mem_cons, or_comm]
      have hfire := runMain_step_fire tid tk cfg p hp done u (hashOf tk cfg p done)
        (applyMessage_mkEvent_hashOf tid tk cfg p done u) hiff
      constructor
      · rw [List.map_cons, List.map_nil, runEvents_cons, hfire]
        rfl
      · rw [List.map_cons, List.map_nil, runEvents_cons, hfire]
        dsimp only
        simp [runEvents, completedOf_append, completedOf_progressSends,
          canonicalCompleted, completedOf_completed_send]
    | cons w rest2 =>
      have hnd : (done ++ u :: w :: rest2).Nodup :=
        hperm.nodup_iff.mpr (requiredSlots_nodup _)
      have hw : w ∈ requiredSlots (truthy cfg) := hperm.mem_iff.mp (by simp)
      have hwS : w ∉ u :: done := by
        rcases List.nodup_append.mp hnd with ⟨hd1, hd2, hdisj⟩
        intro hmem
        rcases List.mem_cons.mp hmem with h | h
        · subst h
          exact (List.nodup_cons.mp hd2).1 (List.mem_cons_self _ _)
        · exact hdisj h (by simp)
      have hnofire := runMain_step_nofire tid tk cfg p hp done u w (hashOf tk cfg p done)
        (applyMessage_mkEvent_hashOf tid tk cfg p done u) hw hwS
      have hpermNext : ((u :: done) ++ w :: rest2).Perm (requiredSlots (truthy cfg)) := by
        refine List.Perm.trans ?_ hperm
        simpa using List.perm_middle.symm
      have hrec := ih (u :: done) (by simp) hpermNext
      constructor
      · rw [List.map_cons, runEvents_cons, hnofire]
        exact hrec.1
      · rw [List.map_cons, runEvents_cons, hnofire]
        dsimp only
        rw [completedOf_append, completedOf_progressSends, hrec.2]
        rfl

/-- C3 (amended): for one task's result events with pairwise-distinct
slots, all sharing the task id, ticker, LLM config and per-slot
payloads, whose slot set is exactly the required set, every
permutation of the delivery order produces the same single completed
notification (built from the full snapshot of payloads) and the same
final store state — the task entry deleted. For multisets with
duplicate slots this fails (see the counterexample): a duplicate
delivered after the completing event re-creates the entry. -/
theorem C3_order_independence (tid tk cfg : PyVal) (p : Slot → PyVal)
    (hp : ∀ s : Slot, p s ≠ PyVal.pyNone) (l : List Slot)
    (hperm : l.Perm (requiredSlots (truthy cfg))) :
    (runEvents emptyHash (l.map (mkEvent tid tk cfg p))).1 = emptyHash ∧
    completedOf (runEvents emptyHash (l.map (mkEvent tid tk cfg p))).2 =
      [canonicalCompleted tid tk cfg p] := by
  cases l with
  | nil =>
    exfalso
    have hlen := hperm.length_eq
    cases hc : truthy cfg <;> rw [hc] at hlen <;> simp [requiredSlots] at hlen
  | cons u rest =>
    cases rest with
    | nil =>
      exfalso
      have hlen := hperm.length_eq
      cases hc : truthy cfg <;> rw [hc] at hlen <;> simp [requiredSlots] at hlen
    | cons w rest2 =>
      have hnd : (u :: w :: rest2).Nodup := hperm.nodup_iff.mpr (requiredSlots_nodup _)
      have hw : w ∈ requiredSlots (truthy cfg) := hperm.mem_iff.mp (by simp)
      have hwu : w ∉ u :: ([] : List Slot) := by
        intro hmem
        rcases List.mem_cons.mp hmem with h | h
        · subst h
          exact (List.nodup_cons.mp hnd).1 (List.mem_cons_self _ _)
        · cases h
      have hnofire := runMain_step_nofire tid tk cfg p hp [] u w emptyHash
        (applyMessage_mkEvent_empty tid tk cfg p u) hw hwu
      have hpermNext : (([u] : List Slot) ++ w :: rest2).Perm (requiredSlots (truthy cfg)) := by
        simpa using hperm
      have hrec := runEvents_covering tid tk cfg p hp (w :: rest2) [u] (by simp) hpermNext
      constructor
      · rw [List.map_cons, runEvents_cons, hnofire]
        exact hrec.1
      · rw [List.map_cons, runEvents_cons, hnofire]
        dsimp only
        rw [completedOf_append, completedOf_progressSends, hrec.2]
        rfl

/-- C3 witness: the five statistical events delivered in reverse order
finalize with the canonical completed notification and a deleted
store. -/
theorem C3_order_independence_witness :
    (runEvents emptyHash
      (([.ml_sentiment, .ml_technical, .ml_prediction, .news, .stock_data] : List Slot).map
        (mkEvent (.str "t1") (.str "AAPL") .pyNone (fun _ => .num 1)))).1 = emptyHash ∧
    completedOf (runEvents emptyHash
      (([.ml_sentiment, .ml_technical, .ml_prediction, .news, .stock_data] : List Slot).map
        (mkEvent (.str "t1") (.str "AAPL") .pyNone (fun _ => .num 1)))).2 =
      [canonicalCompleted (.str "t1") (.str "AAPL") .pyNone (fun _ => .num 1)] :=
  C3_order_independence (.str "t1") (.str "AAPL") .pyNone (fun _ => .num 1)
    (fun _ => (by decide : PyVal.num 1 ≠ PyVal.pyNone)) _ (by decide)

/-- C3 counterexample: two permutations of one multiset of six result
events — the five statistical results plus a duplicate `stock_data`
event with identical payload — end in different final store states:
with the duplicate first the run ends deleted, with the duplicate last
the trailing event re-creates the entry after the deletion. -/
theorem C3_duplicate_order_counterexample :
    (statEvent "stock_data_ready" :: fiveStatEvents).Perm
      (fiveStatEvents ++ [statEvent "stock_data_ready"]) ∧
    (runEvents emptyHash (statEvent "stock_data_ready" :: fiveStatEvents)).1 = emptyHash ∧
    (runEvents emptyHash (fiveStatEvents ++ [statEvent "stock_data_ready"])).1 ≠ emptyHash := by
  refine ⟨by decide, rfl, by decide⟩

end InvestingIQ
